import Mathlib

/-
Verification of go/vt/mysqlctl/mysql_flavor.go (package mysqlctl).

The file under verification declares:
  * the MysqlFlavor interface (the capability contract, lines 22-56),
  * the package-level registry  var mysqlFlavors map[string]MysqlFlavor  (line 58),
  * the resolver  func mysqlFlavor() MysqlFlavor  (lines 60-81).

Shallow embedding conventions used below:
  * A Go map[string]MysqlFlavor is embedded as an association list
    List (String × MysqlFlavor); the Go-map representation invariant
    (each key occurs at most once) appears as a List.Nodup hypothesis on
    theorems that quantify over registries.
  * os.Getenv("MYSQL_FLAVOR") returns "" both when the variable is unset
    and when it is set to the empty string, so the environment input is a
    single String, "" meaning unset/empty.
  * glog's log.Fatal / log.Fatalf print a message and call os.Exit(255);
    control never continues past them.  They are embedded as the terminal
    outcome FlavorOutcome.fatal carrying the message.  log.Info / log.Infof
    only write to the log and do not affect control flow or state, so they
    have no counterpart in the embedding.
  * The trailing  panic("")  on line 81 is kept in the outcome type as the
    constructor FlavorOutcome.panicked so that its (un)reachability can be
    stated and proved.
-/

namespace Mysqlctl

/-- Handle to a mysqld server (external collaborator type *Mysqld); its
internal structure is irrelevant to this file. -/
structure Mysqld where
  id : Nat

/-- Slave connection handle (external collaborator type *SlaveConnection). -/
structure SlaveConnection where
  id : Nat

/-- Connection parameters (external collaborator type *mysql.ConnectionParams). -/
structure ConnectionParams where
  host : String

/-- Replication position (external collaborator type proto.ReplicationPosition);
opaque here. -/
structure ReplicationPosition where
  repr : String

/-- Replication status (external collaborator type proto.ReplicationStatus);
opaque here. -/
structure ReplicationStatus where
  pos : ReplicationPosition

/-- Global transaction id (external collaborator type proto.GTID); opaque here. -/
structure GTID where
  repr : String

/-- Parsed view over one raw binlog frame (external collaborator type
blproto.BinlogEvent); opaque here. -/
structure BinlogEvent where
  bytes : List Nat

/-- A Go error value, carrying its message. -/
structure GoError where
  msg : String

/-- The MysqlFlavor interface of mysql_flavor.go lines 22-56, embedded as a
structure of function fields.  Go's (T, error) result pairs become
Except GoError T, a bare error result becomes Option GoError (none = nil),
a *ReplicationStatus result becomes Option ReplicationStatus (none = nil
pointer), []byte becomes List Nat, and time.Duration becomes Nat
(nanoseconds).  Note that MakeBinlogEvent (line 52) returns a plain
BinlogEvent: the Go method has no error result. -/
structure MysqlFlavor where
  MasterPosition : Mysqld → Except GoError ReplicationPosition
  SlaveStatus : Mysqld → Except GoError (Option ReplicationStatus)
  PromoteSlaveCommands : List String
  StartReplicationCommands : ConnectionParams → ReplicationStatus → Except GoError (List String)
  ParseGTID : String → Except GoError GTID
  ParseReplicationPosition : String → Except GoError ReplicationPosition
  SendBinlogDumpCommand : Mysqld → SlaveConnection → ReplicationPosition → Option GoError
  MakeBinlogEvent : List Nat → BinlogEvent
  WaitMasterPos : Mysqld → ReplicationPosition → Nat → Option GoError

/-- Go types occurring in the MysqlFlavor interface signatures, as a code. -/
inductive GoTy where
  | mysqldPtr
  | slaveConnPtr
  | connParamsPtr
  | replicationPos
  | replicationStatusPtr
  | gtid
  | binlogEvent
  | stringTy
  | stringSlice
  | byteSlice
  | duration
  | goError
  deriving DecidableEq, BEq, Repr

/-- The method table of the MysqlFlavor interface, transcribed from
mysql_flavor.go lines 22-56: for each method, its parameter types and its
result types exactly as written in the Go source. -/
def mysqlFlavorInterface : List (String × List GoTy × List GoTy) :=
  [ ("MasterPosition", ([.mysqldPtr], [.replicationPos, .goError])),
    ("SlaveStatus", ([.mysqldPtr], [.replicationStatusPtr, .goError])),
    ("PromoteSlaveCommands", ([], [.stringSlice])),
    ("StartReplicationCommands",
      ([.connParamsPtr, .replicationStatusPtr], [.stringSlice, .goError])),
    ("ParseGTID", ([.stringTy], [.gtid, .goError])),
    ("ParseReplicationPosition", ([.stringTy], [.replicationPos, .goError])),
    ("SendBinlogDumpCommand",
      ([.mysqldPtr, .slaveConnPtr, .replicationPos], [.goError])),
    ("MakeBinlogEvent", ([.byteSlice], [.binlogEvent])),
    ("WaitMasterPos", ([.mysqldPtr, .replicationPos, .duration], [.goError])) ]

/-- Indexing a Go map[string]β with the comma-ok form: m[f] yields the value
stored under f, or nothing when f is absent.  Embedded over the association
list representation; under the Go-map invariant (pairwise distinct keys)
the result is the unique value bound to f. -/
def mapIndex {β : Type} : List (String × β) → String → Option β
  | [], _ => none
  | (k, v) :: t, f => if f = k then some v else mapIndex t f

/-- A method of the interface has a failure channel when one of its declared
result types is Go's error type: only then can it report a malformed input
or any other failure to the caller through its own return values. -/
def hasFailureChannel (method : String) : Bool :=
  match mapIndex mysqlFlavorInterface method with
  | some (_, results) => results.contains .goError
  | none => false

/-- The registry  var mysqlFlavors map[string]MysqlFlavor  (line 58),
embedded as an association list.  The Go-map invariant (keys pairwise
distinct) is carried as a hypothesis where theorems quantify over
registries. -/
abbrev Registry := List (String × MysqlFlavor)

/-- Outcome of one call to func mysqlFlavor() (lines 60-81): either a
flavor is returned normally, or the process exits via log.Fatal/log.Fatalf
(the ConfigurationError outcome, with the logged message), or the
panic("") on line 81 would run.  The last constructor exists so that the
reachability of line 81 can be stated. -/
inductive FlavorOutcome where
  | found (v : MysqlFlavor)
  | fatal (msg : String)
  | panicked

/-- True exactly on the fatal (process-exit / ConfigurationError) outcome. -/
def FlavorOutcome.isFatal : FlavorOutcome → Bool
  | .fatal _ => true
  | _ => false

/-- True exactly on the normal-return outcome. -/
def FlavorOutcome.isFound : FlavorOutcome → Bool
  | .found _ => true
  | _ => false

/-- func mysqlFlavor() (mysql_flavor.go lines 60-81), with the two process
inputs made explicit: env is os.Getenv("MYSQL_FLAVOR") and r is the
package-level map mysqlFlavors.
Line-by-line correspondence:
  line 62  if f == ""                      → the outer if
  lines 63-68  if len(mysqlFlavors) == 1 { for k, v := range … return v }
               → the single-entry match arm (for a Go map of size one the
                 loop returns its unique entry)
  lines 69-72  if v, ok := mysqlFlavors["GoogleMysql"]; ok → lookup default
  line 73  log.Fatal(…)                    → fatal, ending the call
  lines 75-78  if v, ok := mysqlFlavors[f]; ok → lookup env
  line 79  log.Fatalf(…)                   → fatal, ending the call
  line 81  panic("")                       → dead code: log.Fatalf exits
           the process, so the translation of the live control flow never
           produces FlavorOutcome.panicked. -/
def mysqlFlavor (env : String) (r : Registry) : FlavorOutcome :=
  if env = "" then
    match r with
    | [(_, v)] => .found v
    | _ =>
      match mapIndex r "GoogleMysql" with
      | some v => .found v
      | none => .fatal "MYSQL_FLAVOR is not set, and no GoogleMysql flavor registered"
  else
    match mapIndex r env with
    | some v => .found v
    | none => .fatal ("MYSQL_FLAVOR is set to unknown value " ++ env)

/-- Reading len(mysqlFlavors), as a state-threaded registry operation. -/
def registryLen (r : Registry) : Nat × Registry :=
  (r.length, r)

/-- Reading mysqlFlavors[k] (the comma-ok map read), state-threaded. -/
def registryGet (r : Registry) (k : String) : Option MysqlFlavor × Registry :=
  (mapIndex r k, r)

/-- Reading the entry sequence of the map (the range loop's view),
state-threaded. -/
def registryEntries (r : Registry) : List (String × MysqlFlavor) × Registry :=
  (r, r)

/-- The implicit-resolution tail of mysqlFlavor (lines 69-73): look up the
default name "GoogleMysql", else exit fatally.  State-threaded. -/
def mysqlFlavorImplicitTail (r : Registry) : FlavorOutcome × Registry :=
  let g := registryGet r "GoogleMysql"
  match g.1 with
  | some v => (.found v, g.2)
  | none =>
    (.fatal "MYSQL_FLAVOR is not set, and no GoogleMysql flavor registered", g.2)

/-- func mysqlFlavor() again, but as a state-threading translation: every
read of the package-level map mysqlFlavors goes through a registry
operation that passes the registry state along, and the final registry
state is returned next to the outcome.  The source function contains no
write to mysqlFlavors, so no operation here updates the state.  If
len == 1 but the map is empty (impossible for a real map, representable
for a list) the range loop body never runs and Go control falls through to
the default lookup, which the empty match arm mirrors. -/
def mysqlFlavorS (env : String) (r0 : Registry) : FlavorOutcome × Registry :=
  if env = "" then
    let n := registryLen r0
    if n.1 = 1 then
      match registryEntries n.2 with
      | ((_, v) :: _, r2) => (.found v, r2)
      | ([], r2) => mysqlFlavorImplicitTail r2
    else
      mysqlFlavorImplicitTail n.2
  else
    let g := registryGet r0 env
    match g.1 with
    | some v => (.found v, g.2)
    | none => (.fatal ("MYSQL_FLAVOR is set to unknown value " ++ env), g.2)

/-- A concrete MysqlFlavor value for witnesses and counterexamples; the tag
makes distinct instances distinguishable through PromoteSlaveCommands. -/
def testFlavor (tag : String) : MysqlFlavor where
  MasterPosition := fun _ => .error ⟨tag⟩
  SlaveStatus := fun _ => .error ⟨tag⟩
  PromoteSlaveCommands := [tag]
  StartReplicationCommands := fun _ _ => .error ⟨tag⟩
  ParseGTID := fun _ => .error ⟨tag⟩
  ParseReplicationPosition := fun _ => .error ⟨tag⟩
  SendBinlogDumpCommand := fun _ _ _ => some ⟨tag⟩
  MakeBinlogEvent := fun bs => ⟨bs⟩
  WaitMasterPos := fun _ _ _ => some ⟨tag⟩

/-- Stand-in for a registered GoogleMysql implementation. -/
def implA : MysqlFlavor := testFlavor "implA"

/-- Stand-in for a registered MariaDB implementation. -/
def implB : MysqlFlavor := testFlavor "implB"

/-- Stand-in for a third registered implementation. -/
def implC : MysqlFlavor := testFlavor "implC"

/-- What it means for the resolver to serve repeat calls from a process-wide
cache, as the spec prescribes: once a call has resolved successfully, a
later call returns the stored instance as a pure read, so its result does
not depend on the registry contents at the time of the later call. -/
def resolutionReadsCache : Prop :=
  ∀ (env : String) (r r' : Registry) (v : MysqlFlavor),
    mysqlFlavor env r = .found v → mysqlFlavor env r' = .found v

/-- A successful lookup in the association-list embedding of the registry
finds an actually registered entry. -/
theorem mapIndex_mem {β : Type} {m : List (String × β)} {f : String} {v : β}
    (h : mapIndex m f = some v) : (f, v) ∈ m := by
  induction m with
  | nil => exact Option.noConfusion h
  | cons x t ih =>
    rcases x with ⟨a, b⟩
    rw [mapIndex] at h
    by_cases hk : f = a
    · rw [if_pos hk] at h
      cases h
      rw [hk]
      exact List.mem_cons_self _ _
    · rw [if_neg hk] at h
      exact List.mem_cons_of_mem _ (ih h)

/-- With the environment variable unset, a registry of two or more entries
skips the single-entry rule and falls to the default-name lookup. -/
theorem mysqlFlavor_empty_env_multi (x y : String × MysqlFlavor) (u : Registry) :
    mysqlFlavor "" (x :: y :: u)
      = match mapIndex (x :: y :: u) "GoogleMysql" with
        | some v => .found v
        | none => .fatal "MYSQL_FLAVOR is not set, and no GoogleMysql flavor registered" :=
  rfl

/-- With the environment variable set non-empty, the resolver is exactly the
registry lookup of that value, fatal when absent. -/
theorem mysqlFlavor_nonempty_env (env : String) (h : ¬ env = "") (r : Registry) :
    mysqlFlavor env r
      = match mapIndex r env with
        | some v => .found v
        | none => .fatal ("MYSQL_FLAVOR is set to unknown value " ++ env) := by
  unfold mysqlFlavor
  rw [if_neg h]

/-- Every run of the resolver either returns a registered implementation or
exits fatally; no run reaches the trailing panic. -/
theorem mysqlFlavor_shape (env : String) (r : Registry) :
    (∃ v k, mysqlFlavor env r = .found v ∧ (k, v) ∈ r)
      ∨ (∃ m, mysqlFlavor env r = .fatal m) := by
  by_cases henv : env = ""
  · subst henv
    rcases r with _ | ⟨⟨k1, v1⟩, t⟩
    · right
      exact ⟨_, rfl⟩
    · rcases t with _ | ⟨⟨k2, v2⟩, u⟩
      · left
        exact ⟨v1, k1, rfl, List.mem_cons_self _ _⟩
      · rcases hg : mapIndex ((k1, v1) :: (k2, v2) :: u) "GoogleMysql" with _ | w
        · right
          rw [mysqlFlavor_empty_env_multi, hg]
          exact ⟨_, rfl⟩
        · left
          exact ⟨w, "GoogleMysql", by rw [mysqlFlavor_empty_env_multi, hg], mapIndex_mem hg⟩
  · rcases hg : mapIndex r env with _ | w
    · right
      rw [mysqlFlavor_nonempty_env env henv, hg]
      exact ⟨_, rfl⟩
    · left
      exact ⟨w, env, by rw [mysqlFlavor_nonempty_env env henv, hg], mapIndex_mem hg⟩

/-- The implicit-resolution tail threads the registry through unchanged. -/
theorem mysqlFlavorImplicitTail_snd (r : Registry) :
    (mysqlFlavorImplicitTail r).2 = r := by
  unfold mysqlFlavorImplicitTail registryGet
  dsimp only
  split <;> rfl

/-- The state-threaded resolver returns the registry it was given: the source
function contains no write to the mysqlFlavors map. -/
theorem mysqlFlavorS_snd (env : String) (r : Registry) :
    (mysqlFlavorS env r).2 = r := by
  unfold mysqlFlavorS registryLen registryGet registryEntries
  dsimp only
  split
  · split
    · split
      · rename_i heq
        injection heq with h1 h2
        subst h2
        rfl
      · rename_i heq
        injection heq with h1 h2
        subst h2
        exact mysqlFlavorImplicitTail_snd _
    · exact mysqlFlavorImplicitTail_snd _
  · split <;> rfl

/-- The state-threaded resolver computes the same outcome as the direct one. -/
theorem mysqlFlavorS_fst (env : String) (r : Registry) :
    (mysqlFlavorS env r).1 = mysqlFlavor env r := by
  by_cases henv : env = ""
  · subst henv
    rcases r with _ | ⟨⟨k1, v1⟩, t⟩
    · rfl
    · rcases t with _ | ⟨⟨k2, v2⟩, u⟩
      · rfl
      · show (mysqlFlavorImplicitTail ((k1, v1) :: (k2, v2) :: u)).1 = _
        rw [mysqlFlavor_empty_env_multi]
        unfold mysqlFlavorImplicitTail registryGet
        dsimp only
        split <;> rfl
  · rw [mysqlFlavor_nonempty_env env henv]
    unfold mysqlFlavorS registryGet
    rw [if_neg henv]
    dsimp only
    split <;> rfl

/-- C1 (counterexample): the claim states that a second call to mysqlFlavor
returns the same instance as the first AND is served as a pure read of a
per-process cache rather than by re-running the resolution policy.  A
cache read cannot depend on the registry contents at the time of the later
call (resolutionReadsCache).  The code has no cache: with the variable
unset, a first call on the one-entry registry [GoogleMysql ↦ implA]
resolves to implA, yet a call on a two-entry registry without the default
name exits fatally instead of returning the resolved implA — resolution is
recomputed from the current registry on every call. -/
theorem c1_counterexample :
    ¬ ((∀ (env : String) (r : Registry),
          (mysqlFlavorS env r).1 = (mysqlFlavorS env (mysqlFlavorS env r).2).1)
        ∧ resolutionReadsCache) := by
  rintro ⟨-, hc⟩
  have h := hc "" [("GoogleMysql", implA)] [("MariaDB", implB), ("FooSql", implC)] implA rfl
  exact absurd (congrArg FlavorOutcome.isFatal h) (by decide)

/-- C1 (amended): calling mysqlFlavor twice with the registry left unchanged
between the calls returns the identical resolved instance both times,
because resolution is a deterministic pure function of the environment
value and the registry — not because the result is cached; the policy is
re-run on each call. -/
theorem c1_deterministic_recomputation (env : String) (r : Registry) :
    (mysqlFlavorS env r).1 = (mysqlFlavorS env (mysqlFlavorS env r).2).1 := by
  rw [mysqlFlavorS_snd]

/-- C1 (witness): the double-call theorem applied to a concrete registry. -/
theorem c1_witness :
    (mysqlFlavorS "" [("GoogleMysql", implA)]).1
      = (mysqlFlavorS "" (mysqlFlavorS "" [("GoogleMysql", implA)]).2).1 :=
  c1_deterministic_recomputation "" [("GoogleMysql", implA)]

/-- C2 (counterexample): with registry exactly [MariaDB ↦ implB] and the
configuration value unset, the claim says resolution fails with a
ConfigurationError; the code instead succeeds and returns implB through
the single-registered-flavor rule (lines 63-68), which applies regardless
of the flavor's name. -/
theorem c2_counterexample :
    mysqlFlavor "" [("MariaDB", implB)] = .found implB
      ∧ (mysqlFlavor "" [("MariaDB", implB)]).isFatal = false :=
  ⟨rfl, rfl⟩

/-- C2 (amended): when the registry contains exactly the single entry
"MariaDB" and the configuration value is unset, resolution succeeds and
returns that entry's implementation (the single-registered-flavor rule
applies whatever the name; the default name is not consulted). -/
theorem c2_single_mariadb_resolves (v : MysqlFlavor) :
    mysqlFlavor "" [("MariaDB", v)] = .found v :=
  rfl

/-- C2 (witness): the amended theorem applied to the concrete implB. -/
theorem c2_witness : mysqlFlavor "" [("MariaDB", implB)] = .found implB :=
  c2_single_mariadb_resolves implB

/-- C3 (counterexample): the claim requires MakeBinlogEvent to report
structurally invalid frames to the caller through a ParseError failure
channel.  The method's declared Go signature (line 52) has no error
result at all, so no such channel exists. -/
theorem c3_counterexample : ¬ hasFailureChannel "MakeBinlogEvent" = true := by
  decide

/-- C3 (amended): MakeBinlogEvent takes the raw byte frame and returns a
BinlogEvent view over those bytes as its only result; the method has no
error result, so a structurally invalid frame cannot be reported as a
ParseError from this call (any validity reporting must happen elsewhere,
e.g. through the returned BinlogEvent).  Every parsing method that does
report malformed input (ParseGTID, ParseReplicationPosition) declares an
error result. -/
theorem c3_make_binlog_event_signature :
    mapIndex mysqlFlavorInterface "MakeBinlogEvent"
        = some ([GoTy.byteSlice], [GoTy.binlogEvent])
      ∧ hasFailureChannel "MakeBinlogEvent" = false
      ∧ hasFailureChannel "ParseGTID" = true
      ∧ hasFailureChannel "ParseReplicationPosition" = true :=
  ⟨rfl, rfl, rfl, rfl⟩

/-- C4: whenever MYSQL_FLAVOR is set non-empty and the registry (a Go map,
hence the distinct-keys hypothesis) binds that exact name, resolution
succeeds and returns exactly the implementation registered under that
name, whatever else the registry contains. -/
theorem c4_explicit_registered_selects (env : String) (r : Registry) (v : MysqlFlavor)
    (hne : env ≠ "") ( _hnd : (r.map Prod.fst).Nodup)
    (hfind : mapIndex r env = some v) :
    mysqlFlavor env r = .found v := by
  rw [mysqlFlavor_nonempty_env env hne, hfind]

/-- C4 (witness): config "MariaDB" against a two-entry registry that also
contains the default name resolves to the MariaDB implementation. -/
theorem c4_witness :
    mysqlFlavor "MariaDB" [("GoogleMysql", implA), ("MariaDB", implB)] = .found implB :=
  c4_explicit_registered_selects "MariaDB" [("GoogleMysql", implA), ("MariaDB", implB)]
    implB (by decide) (by decide) rfl

/-- C5: whenever MYSQL_FLAVOR is set non-empty and the registry does not bind
that name, resolution exits fatally with the unknown-value diagnostic (the
ConfigurationError outcome); neither implicit rule is consulted — the
conclusion holds for every registry, including one with exactly one entry. -/
theorem c5_explicit_unregistered_fatal (env : String) (r : Registry)
    (hne : env ≠ "") ( _hnd : (r.map Prod.fst).Nodup)
    (hfind : mapIndex r env = none) :
    mysqlFlavor env r = .fatal ("MYSQL_FLAVOR is set to unknown value " ++ env) := by
  rw [mysqlFlavor_nonempty_env env hne, hfind]

/-- C5 (witness): config "Unknown" against the one-entry registry
[GoogleMysql ↦ implA] exits fatally even though exactly one flavor is
registered. -/
theorem c5_witness :
    mysqlFlavor "Unknown" [("GoogleMysql", implA)]
      = .fatal "MYSQL_FLAVOR is set to unknown value Unknown" :=
  c5_explicit_unregistered_fatal "Unknown" [("GoogleMysql", implA)]
    (by decide) (by decide) rfl

/-- C6: with MYSQL_FLAVOR unset or empty (os.Getenv yields "" in both cases)
and exactly one flavor registered, resolution succeeds and returns that
flavor's implementation, whatever its name. -/
theorem c6_single_flavor_implicit (k : String) (v : MysqlFlavor) :
    mysqlFlavor "" [(k, v)] = .found v :=
  rfl

/-- C6 (witness): the single-flavor rule applied to a concrete registry whose
only name is not the default. -/
theorem c6_witness : mysqlFlavor "" [("FooSql", implC)] = .found implC :=
  c6_single_flavor_implicit "FooSql" implC

/-- C7: with MYSQL_FLAVOR unset, two or more flavors registered, and no entry
under the default name "GoogleMysql", resolution exits fatally (log.Fatal,
the ConfigurationError outcome): no degraded or arbitrary flavor is
returned, since the fatal outcome carries no implementation. -/
theorem c7_ambiguous_fatal (r : Registry)
    ( _hnd : (r.map Prod.fst).Nodup) (hlen : 2 ≤ r.length)
    (hg : mapIndex r "GoogleMysql" = none) :
    mysqlFlavor "" r = .fatal "MYSQL_FLAVOR is not set, and no GoogleMysql flavor registered" := by
  rcases r with _ | ⟨⟨k1, v1⟩, t⟩
  · simp at hlen
  · rcases t with _ | ⟨⟨k2, v2⟩, u⟩
    · simp at hlen
    · rw [mysqlFlavor_empty_env_multi, hg]

/-- C7 (witness): the ambiguity rule applied to a concrete two-entry registry
without the default name. -/
theorem c7_witness :
    mysqlFlavor "" [("MariaDB", implB), ("FooSql", implC)]
      = .fatal "MYSQL_FLAVOR is not set, and no GoogleMysql flavor registered" :=
  c7_ambiguous_fatal [("MariaDB", implB), ("FooSql", implC)]
    (by decide) (by decide) rfl

/-- C8: with MYSQL_FLAVOR unset and a registry of two or more entries that
binds the default name "GoogleMysql", resolution succeeds and returns the
implementation registered under the default name. -/
theorem c8_default_name_selected (r : Registry) (v : MysqlFlavor)
    ( _hnd : (r.map Prod.fst).Nodup) (hlen : 2 ≤ r.length)
    (hg : mapIndex r "GoogleMysql" = some v) :
    mysqlFlavor "" r = .found v := by
  rcases r with _ | ⟨⟨k1, v1⟩, t⟩
  · simp at hlen
  · rcases t with _ | ⟨⟨k2, v2⟩, u⟩
    · simp at hlen
    · rw [mysqlFlavor_empty_env_multi, hg]

/-- C8 (witness): the default rule applied to a concrete registry in which
the default name is registered second. -/
theorem c8_witness :
    mysqlFlavor "" [("MariaDB", implB), ("GoogleMysql", implA)] = .found implA :=
  c8_default_name_selected [("MariaDB", implB), ("GoogleMysql", implA)] implA
    (by decide) (by decide) rfl

/-- C9: whenever mysqlFlavor returns normally, the returned value is an
implementation present in the registry under some name (never a value
absent from the registry, and never the nil that no code path produces);
and no run of the function reaches the trailing panic on line 81, since
log.Fatalf terminates the process first. -/
theorem c9_normal_return_is_registered (env : String) (r : Registry) (v : MysqlFlavor) :
    (mysqlFlavor env r = .found v → ∃ k, (k, v) ∈ r)
      ∧ mysqlFlavor env r ≠ .panicked := by
  rcases mysqlFlavor_shape env r with ⟨w, k, hw, hk⟩ | ⟨m, hm⟩
  · refine ⟨fun h => ?_, fun h => ?_⟩
    · rw [hw] at h
      cases h
      exact ⟨k, hk⟩
    · rw [h] at hw
      exact FlavorOutcome.noConfusion hw
  · refine ⟨fun h => ?_, fun h => ?_⟩
    · rw [hm] at h
      exact FlavorOutcome.noConfusion h
    · rw [h] at hm
      exact FlavorOutcome.noConfusion hm

/-- C9 (witness): at a concrete registry the returned implementation is a
registered one and the run does not panic. -/
theorem c9_witness :
    (∃ k, (k, implA) ∈ ([("GoogleMysql", implA)] : Registry))
      ∧ mysqlFlavor "" [("GoogleMysql", implA)] ≠ .panicked :=
  ⟨(c9_normal_return_is_registered "" [("GoogleMysql", implA)] implA).1 rfl,
   (c9_normal_return_is_registered "" [("GoogleMysql", implA)] implA).2⟩

/-- C10: the resolver never modifies the registry: for every environment
value and registry contents, the state-threaded translation of mysqlFlavor
returns the mysqlFlavors map exactly as it found it — the function only
reads the map. -/
theorem c10_registry_unchanged (env : String) (r : Registry) :
    (mysqlFlavorS env r).2 = r :=
  mysqlFlavorS_snd env r

/-- C10 (witness): the frame property at a concrete environment and registry. -/
theorem c10_witness :
    (mysqlFlavorS "MariaDB" [("GoogleMysql", implA), ("MariaDB", implB)]).2
      = [("GoogleMysql", implA), ("MariaDB", implB)] :=
  c10_registry_unchanged "MariaDB" [("GoogleMysql", implA), ("MariaDB", implB)]

end Mysqlctl
